import Mathlib

/-!
Shallow embedding of the elective-recommender repository
(`app.py` and `create_knowledge_base.py`) and proofs about it.

Conventions:
* Python strings are modelled as Lean `String` / `List Char`; the ad-hoc
  regular expressions of `app.py` are translated pattern-by-pattern into
  specialized search functions that reproduce Python `re` semantics
  (leftmost match, greedy / lazy quantifier preference, `.` not crossing
  a newline) for those concrete patterns.
* Python `datetime.now()` is modelled by passing the reference year and
  month explicitly.
* `None` / `NaN` table cells are modelled with `Option`.
* Raised exceptions of the parsing path are modelled with `Option`
  (`none` = the computation raised before producing a result).
-/

/-- Python `\s` on ASCII text: the whitespace class used by `re`. -/
def pyIsSpace (c : Char) : Bool :=
  c = ' ' || c = '\t' || c = '\n' || c = '\x0d' || c = '\x0b' || c = '\x0c'

/-- Python `str.strip()`: drop leading and trailing whitespace. -/
def pyStrip (s : List Char) : List Char :=
  ((s.dropWhile pyIsSpace).reverse.dropWhile pyIsSpace).reverse

/-- Python `str.lower()` (ASCII case folding, like `Char.toLower`). -/
def pyLower (s : String) : String := String.mk (s.data.map Char.toLower)

/-- Python `str.startswith(p)`. -/
def pyStartsWith (s p : String) : Bool := p.data.isPrefixOf s.data

/-- One attempt of the pattern `<label>\s*([<cls>]+)` at the head of `t`
(used for `Roll No:`, `Name:` and `Department:` in `parse_grade_card`).
`\s*` is greedy; when the character class contains whitespace the single
backtracking step that Python performs (giving the last whitespace
character back to the group) is reproduced. -/
def labelCapture (label : List Char) (cls : Char → Bool) (t : List Char) :
    Option (List Char) :=
  if label.isPrefixOf t then
    let r := t.drop label.length
    let w := r.takeWhile pyIsSpace
    let r2 := r.drop w.length
    let g := r2.takeWhile cls
    if !g.isEmpty then some g
    else
      match w.reverse with
      | [] => none
      | c :: _ => if cls c then some [c] else none
  else none

/-- `re.search` for the labelled patterns: try every start position from
the left, return the first capture. -/
def searchLabel (label : List Char) (cls : Char → Bool) : List Char → Option (List Char)
  | [] => none
  | c :: cs =>
    match labelCapture label cls (c :: cs) with
    | some g => some g
    | none => searchLabel label cls cs

/-- The tail `is\s*([\d\.]+)` of the cgpa pattern, tried at one position. -/
def cgpaNumberAt (u : List Char) : Option (List Char) :=
  if ("is".data).isPrefixOf u then
    let r := (u.drop 2).dropWhile pyIsSpace
    let g := r.takeWhile (fun c => c.isDigit || c = '.')
    if g.isEmpty then none else some g
  else none

/-- The lazy `.*?is\s*([\d\.]+)` part: extend `.*?` one (non-newline)
character at a time, preferring the shortest extension. -/
def cgpaScan : List Char → Option (List Char)
  | [] => none
  | c :: cs =>
    match cgpaNumberAt (c :: cs) with
    | some g => some g
    | none => if c = '\n' then none else cgpaScan cs

/-- One attempt of `average secured.*?is\s*([\d\.]+)` at the head of `t`. -/
def cgpaAt (t : List Char) : Option (List Char) :=
  if ("average secured".data).isPrefixOf t then cgpaScan (t.drop 15) else none

/-- `re.search(r"average secured.*?is\s*([\d\.]+)", text)`. -/
def searchCgpa : List Char → Option (List Char)
  | [] => none
  | c :: cs =>
    match cgpaAt (c :: cs) with
    | some g => some g
    | none => searchCgpa cs

/-- Python `float()` succeeds on a non-empty string of digits and dots
iff there is at most one dot and at least one digit. -/
def pyFloatValid (g : List Char) : Bool :=
  g.count '.' ≤ 1 && g.any (·.isDigit)

/-- Value of a digit character. -/
def charDigit (c : Char) : Nat := c.toNat - 48

/-- Value of a string of digit characters (Python `int` on the capture). -/
def digitsToNat (l : List Char) : Nat :=
  l.foldl (fun n c => n * 10 + charDigit c) 0

/-- First match of `[A-Z]{2}(\d{2})` in the roll number: the two captured
digit characters (used by `calculate_semester_and_year`). -/
def rollYearDigits : List Char → Option (Char × Char)
  | c1 :: c2 :: d1 :: d2 :: rest =>
    if c1.isUpper && c2.isUpper && d1.isDigit && d2.isDigit then some (d1, d2)
    else rollYearDigits (c2 :: d1 :: d2 :: rest)
  | _ => none

/-- `calculate_semester_and_year(roll_no)` from `app.py`; the
`datetime.now()` year and month are explicit parameters. -/
def calculateSemesterAndYear (rollNo : String) (currentYear : Int) (month : Nat) :
    Int × Int :=
  match rollYearDigits rollNo.data with
  | none => (1, 1)
  | some (d1, d2) =>
    let entryYear : Int := ((2000 + (10 * charDigit d1 + charDigit d2) : Nat) : Int)
    let yearDiff := currentYear - entryYear
    let semester := yearDiff * 2 + (if month ≥ 7 then 1 else 0)
    (if semester > 0 then semester else 1, yearDiff + 1)

/-- One row of `courses_taken` as built by `parse_grade_card`. -/
structure CourseTaken where
  course_no : String
  title : String
  credits : Nat
  grade : String
  deriving DecidableEq

/-- The student profile dictionary built by `parse_grade_card`.
`cgpa` stores the text captured by the cgpa pattern (the code converts it
with `float()`; no claim needs the numeric value, and `parse_grade_card`
only stores it when that conversion succeeds).  `occupiedSlots` is `none`
until `init_from_pdf` attaches the `occupied_slots` key. -/
structure StudentProfile where
  rollNo : String
  name : String
  department : String
  cgpa : String
  semester : Int
  courses_taken : List CourseTaken
  occupiedSlots : Option (List String)
  deriving DecidableEq

/-- `generate_suggested_questions(profile)` from `app.py`. -/
def generateSuggestedQuestions (profile : StudentProfile) : List String :=
  let humanitiesCount :=
    (profile.courses_taken.filter (fun c => pyStartsWith c.course_no "HS")).length
  let middle :=
    if humanitiesCount ≥ 2 then "Show me more humanities electives in my free slots"
    else "Suggest some humanities courses for me"
  ["Suggest some 9 credit electives", middle, "Find management electives"]

/-! The course-row pattern of `parse_grade_card`:
`\"([A-Z]{2}\d{3,}[A-Z]*C?)\s*\",\"(.*?)\",\"(\d+)?\",\"([A-Z]{1,2})?\"`
applied with `findall` (leftmost, non-overlapping matches). -/

/-- The four captured groups of one course-row match. -/
structure RawCourse where
  courseNo : List Char
  title : List Char
  credits : List Char
  grade : List Char
  deriving DecidableEq

/-- The literal `","` separating the quoted fields. -/
def quoteCommaQuote : List Char := ['"', ',', '"']

/-- `([A-Z]{1,2})?\"` at the end of a course row (greedy: two letters
preferred over one, one over none), returning the capture and the text
after the closing quote. -/
def gradeAt : List Char → Option (List Char × List Char)
  | [] => none
  | [a] => if a = '"' then some ([], []) else none
  | [a, b] =>
    if a.isUpper && b = '"' then some ([a], [])
    else if a = '"' then some ([], [b]) else none
  | a :: b :: c :: rest =>
    if a.isUpper && b.isUpper && c = '"' then some ([a, b], rest)
    else if a.isUpper && b = '"' then some ([a], c :: rest)
    else if a = '"' then some ([], b :: c :: rest) else none

/-- `(\d+)?\",\"([A-Z]{1,2})?\"` tried right after the title separator:
the (possibly empty) credit digits, the grade capture, and the rest. -/
def courseTailAt (u : List Char) : Option (List Char × List Char × List Char) :=
  let ds := u.takeWhile (·.isDigit)
  if quoteCommaQuote.isPrefixOf (u.drop ds.length) then
    match gradeAt ((u.drop ds.length).drop 3) with
    | some (g4, rest) => some (ds, g4, rest)
    | none => none
  else none

/-- The lazy title group `(.*?)` followed by `\",\"` and the tail: extend
the title one (non-newline) character at a time, preferring the shortest
title for which the rest of the pattern matches. -/
def titleScan (acc : List Char) : List Char → Option (List Char × List Char × List Char × List Char)
  | [] => none
  | c :: cs =>
    match (if quoteCommaQuote.isPrefixOf (c :: cs) then courseTailAt ((c :: cs).drop 3) else none) with
    | some (ds, g4, rest) => some (acc, ds, g4, rest)
    | none => if c = '\n' then none else titleScan (acc ++ [c]) cs

/-- One attempt of the whole course-row pattern at the head of `t`.
`[A-Z]*C?` collapses to the maximal run of uppercase letters: giving
letters back to `C?` never changes the capture or enables a match. -/
def courseAt (t : List Char) : Option (RawCourse × List Char) :=
  match t with
  | '"' :: c1 :: c2 :: rest =>
    if c1.isUpper && c2.isUpper then
      let ds := rest.takeWhile (·.isDigit)
      if ds.length ≥ 3 then
        let r2 := rest.drop ds.length
        let ls := r2.takeWhile (·.isUpper)
        let r3 := r2.drop ls.length
        let r4 := r3.drop (r3.takeWhile pyIsSpace).length
        if quoteCommaQuote.isPrefixOf r4 then
          match titleScan [] (r4.drop 3) with
          | some (ti, ds4, g4, rest2) =>
            some (⟨[c1, c2] ++ ds ++ ls, ti, ds4, g4⟩, rest2)
          | none => none
        else none
      else none
    else none
  | _ => none

/-- `findall`: scan left to right, collecting non-overlapping matches.
Every match consumes at least one character, so a fuel equal to the text
length is sufficient. -/
def findCourses : Nat → List Char → List RawCourse
  | 0, _ => []
  | _, [] => []
  | fuel + 1, t@(_ :: cs) =>
    match courseAt t with
    | some (rc, rest) => rc :: findCourses fuel rest
    | none => findCourses fuel cs

/-- `course_pattern.findall(text)`. -/
def findAllCourses (t : List Char) : List RawCourse := findCourses t.length t

/-- The loop body of `parse_grade_card` that turns a match into a
`courses_taken` entry (empty credits default to `0`, empty grade to
`"N/A"`, quotes are removed from the title). -/
def toCourseTaken (rc : RawCourse) : CourseTaken :=
  { course_no := String.mk rc.courseNo
    title := String.mk (rc.title.filter (fun c => c != '"'))
    credits := if rc.credits.isEmpty then 0 else digitsToNat rc.credits
    grade := if rc.grade.isEmpty then "N/A" else String.mk rc.grade }

/-- The pure part of `parse_grade_card`: extract the profile dictionary
from the transcript text.  `none` models the exception raised when a
required pattern has no match (every field of the dictionary, including
`cgpa`, is built with `.group(1)` on the `re.search` result, so each one
is required) or when `float()` rejects the cgpa capture. -/
def parseGradeCardText (text : String) (currentYear : Int) (month : Nat) :
    Option StudentProfile :=
  let t := text.data
  match searchLabel ("Roll No:".data) (fun c => c.isUpper || c.isDigit) t,
        searchLabel ("Name:".data) (fun c => c.isUpper || pyIsSpace c) t,
        searchLabel ("Department:".data) (fun c => c.isAlpha || pyIsSpace c) t,
        searchCgpa t with
  | some roll, some nm, some dp, some cg =>
    if pyFloatValid cg then
      let rollStr := String.mk roll
      some { rollNo := rollStr
             name := String.mk (pyStrip nm)
             department := String.mk (pyStrip dp)
             cgpa := String.mk cg
             semester := (calculateSemesterAndYear rollStr currentYear month).1
             courses_taken := (findAllCourses t).map toCourseTaken
             occupiedSlots := none }
    else none
  | _, _, _, _ => none

/-- `STUDENT_SESSIONS`: an insertion-ordered dictionary from roll number
to profile. -/
abbrev SessionStore := List (String × StudentProfile)

/-- Python dict assignment `d[k] = v` (overwrite in place, append if new). -/
def storePut : SessionStore → String → StudentProfile → SessionStore
  | [], k, v => [(k, v)]
  | (k0, v0) :: t, k, v =>
    if k0 = k then (k, v) :: t else (k0, v0) :: storePut t k v

/-- `parse_grade_card` including its session side effect: the profile is
stored under its roll number just before the function returns, so on a
parse failure the store is untouched. -/
def parseGradeCard (store : SessionStore) (text : String) (currentYear : Int)
    (month : Nat) : Option StudentProfile × SessionStore :=
  match parseGradeCardText text currentYear month with
  | none => (none, store)
  | some p => (some p, storePut store p.rollNo p)

/-- One row of `COURSE_CATALOG` as consumed by `app.py` (columns
`CourseNo`, `Course Name`, `Department`, `Semester`, `Category`,
`CourseType`, `Slot`, `Description`); nullable text columns are
`Option String`. -/
structure CourseRow where
  courseNo : String
  courseName : Option String
  department : String
  semester : Int
  category : String
  courseType : Option String
  slot : Option String
  description : Option String
  deriving DecidableEq

/-- The elective categories `['H', 'M', 'FRE', 'MNS']`. -/
def electiveCategories : List String := ["H", "M", "FRE", "MNS"]

/-- `dept_code_map.get(department, 'XX')` from `init_from_pdf`. -/
def deptCodeOf (department : String) : String :=
  if department = "Civil Engineering" then "CE"
  else if department = "Aerospace Engineering" then "AE"
  else "XX"

/-- Keep-first deduplication on a key (pandas `drop_duplicates` with
`keep='first'`, and `Series.unique` when the key is the identity). -/
def dedupBy (key : α → String) : List α → List α
  | [] => []
  | x :: xs => x :: dedupBy key (xs.filter fun y => key y != key x)
  termination_by l => l.length
  decreasing_by
    simp only [List.length_cons]
    exact Nat.lt_succ_of_le (List.length_filter_le _ xs)

/-- The HTTP outcome of `init_from_pdf`, without the transport detail:
either the 200 payload or an error response (400/500). -/
inductive InitResult where
  | ok (profile : StudentProfile) (questions : List String)
  | errorResp
  deriving DecidableEq

/-- `init_from_pdf` from `app.py`.  `catalog = none` models
`COURSE_CATALOG is None` (the knowledge base failed to load), in which
case subscripting it raises and the handler answers with the 500 error
response — after `parse_grade_card` has already stored the profile.
The stored profile is mutated in place to attach `occupied_slots`, and
the same (mutated) dictionary is returned in the 200 payload. -/
def initFromPdf (catalog : Option (List CourseRow)) (store : SessionStore)
    (text : String) (currentYear : Int) (month : Nat) : InitResult × SessionStore :=
  match parseGradeCard store text currentYear month with
  | (none, store1) => (InitResult.errorResp, store1)
  | (some profile, store1) =>
    match catalog with
    | none => (InitResult.errorResp, store1)
    | some rows =>
      let deptCode := deptCodeOf profile.department
      let mandatory := rows.filter fun r =>
        r.department == deptCode && r.semester == profile.semester &&
          !(electiveCategories.contains r.category)
      let occupied := dedupBy id (mandatory.filterMap (·.slot))
      let profile2 := { profile with occupiedSlots := some occupied }
      let store2 := storePut store1 profile.rollNo profile2
      (InitResult.ok profile2 (generateSuggestedQuestions profile2), store2)

/-! The recommendation pipeline of `recommend_electives`. -/

/-- Substring containment on character lists. -/
def listContainsSub (pat : List Char) : List Char → Bool
  | [] => pat.isEmpty
  | c :: cs => pat.isPrefixOf (c :: cs) || listContainsSub pat cs

/-- Case-insensitive `Series.str.contains(pat, case=False, na=False)` for
the literal patterns used here: a null cell never matches, otherwise
substring containment after lowercasing both sides.  (pandas compiles the
pattern as a regular expression; every pattern passed in `app.py` whose
behaviour a theorem below depends on is a literal without
metacharacters, for which the two notions coincide.) -/
def lowerContains (field : Option String) (pat : String) : Bool :=
  match field with
  | none => false
  | some s => listContainsSub (pyLower pat).data (pyLower s).data

/-- The keyword list of the performance gate. -/
def codingKeywords : List String :=
  ["programming", "data", "algorithm", "software", "computing", "machine learning"]

/-- `'|'.join(coding_keywords)` matched against one field: the alternation
of literals matches iff some keyword is contained. -/
def matchesCodingKeyword (field : Option String) : Bool :=
  codingKeywords.any (lowerContains field)

/-- `has_poor_coding_perf` from `recommend_electives`. -/
def hasPoorCodingPerf (profile : StudentProfile) : Bool :=
  profile.courses_taken.any fun c =>
    pyStartsWith c.course_no "CS" && ["C", "D", "E"].contains c.grade

/-- The departments exempted from the performance gate. -/
def exemptDepartments : List String := ["Computer Science", "AI & DS"]

/-- Stage 1: `COURSE_CATALOG[Category.isin(['H','M','FRE','MNS'])]`. -/
def electiveStage (catalog : List CourseRow) : List CourseRow :=
  catalog.filter fun r => electiveCategories.contains r.category

/-- Stage 2: the performance-based filtering. -/
def performanceStage (profile : StudentProfile) (rows : List CourseRow) :
    List CourseRow :=
  if hasPoorCodingPerf profile && !(exemptDepartments.contains profile.department) then
    rows.filter fun r =>
      !(matchesCodingKeyword r.courseName) && !(matchesCodingKeyword r.description)
  else rows

/-- `query` matches a row when its name, type or description contains it. -/
def queryMatches (query : String) (r : CourseRow) : Bool :=
  lowerContains r.courseName query || lowerContains r.courseType query ||
    lowerContains r.description query

/-- Stage 3: `if query:` — the filter runs for every non-empty query. -/
def preferenceStage (query : String) (rows : List CourseRow) : List CourseRow :=
  if query = "" then rows else rows.filter (queryMatches query)

/-- `Slot.isin(occupied_slots)` for one row (a null slot is never in). -/
def slotIsOccupied (slot : Option String) (occupied : List String) : Bool :=
  match slot with
  | none => false
  | some s => occupied.contains s

/-- Stage 4: `results[~results['Slot'].isin(occupied_slots)]`. -/
def slotStage (occupied : List String) (rows : List CourseRow) : List CourseRow :=
  rows.filter fun r => !(slotIsOccupied r.slot occupied)

/-- `free_electives` just before `.head(5)`: the whole pipeline of
`recommend_electives` (the preference is lowercased on entry, as in
`data.get('preference', '').lower()`). -/
def freeElectives (catalog : List CourseRow) (profile : StudentProfile)
    (preference : String) (occupied : List String) : List CourseRow :=
  slotStage occupied
    (preferenceStage (pyLower preference)
      (performanceStage profile (electiveStage catalog)))

/-- `recommend_electives`: the first 5 surviving records. -/
def recommendElectives (catalog : List CourseRow) (profile : StudentProfile)
    (preference : String) (occupied : List String) : List CourseRow :=
  (freeElectives catalog profile preference occupied).take 5

/-! Embedding of `create_knowledge_base.py`: the three source tables
(already loaded and with columns renamed per step 2), the two left
merges, the `drop_duplicates` on `CourseNo`, and the final left merge
with the hardcoded prerequisite table. -/

/-- One row of `sem_wise_details.csv` after the rename of step 2. -/
structure SemRow where
  courseNo : String
  department : String
  semester : Int
  category : String

/-- One row of `slotwise_details_cleaned.csv`, restricted to the
`['CourseNo', 'Slot']` projection used by the merge. -/
structure SlotRow where
  courseNo : String
  slot : Option String

/-- One row of `course_type.csv` after the rename, restricted to the
`['Category', 'CourseType']` projection used by the merge. -/
structure TypeRow where
  category : String
  courseType : String

/-- One row of the parsed `prerequisite_data` literal. -/
structure PrereqRow where
  courseNo : String
  prerequisite : Option String

/-- Row of `master_df` after the first merge. -/
structure SemSlotRow where
  courseNo : String
  department : String
  semester : Int
  category : String
  slot : Option String

/-- Row of `master_df` after the second merge (null `CourseType` when the
category has no match in the lookup). -/
structure MasterRow where
  courseNo : String
  department : String
  semester : Int
  category : String
  slot : Option String
  courseType : Option String

/-- Row of `final_df`. -/
structure KnowledgeRow where
  courseNo : String
  department : String
  semester : Int
  category : String
  slot : Option String
  courseType : Option String
  prerequisite : Option String

/-- The rows a single left row contributes to a left merge: one combined
row per matching right row (in right-table order), or one null-padded row
when nothing matches. -/
def joinBlock (ka : α → String) (kb : β → String) (comb : α → β → γ)
    (pad : α → γ) (r : List β) (a : α) : List γ :=
  match r.filter fun b => kb b == ka a with
  | [] => [pad a]
  | ms => ms.map (comb a)

/-- `pd.merge(l, r, on=key, how='left')`: every left row is kept; a left
row with matching right rows is combined with each of them in right-table
order, and an unmatched left row is padded with nulls. -/
def leftJoin (ka : α → String) (kb : β → String) (comb : α → β → γ) (pad : α → γ)
    (l : List α) (r : List β) : List γ :=
  l.flatMap (joinBlock ka kb comb pad r)

/-- `pd.read_csv(io.StringIO(prerequisite_data))`: the hardcoded
prerequisite table of `create_knowledge_base.py`, row by row (an empty
`Prerequisite` field reads as null; the `# ...` line is data to
`read_csv`, padded with a null second field). -/
def prerequisiteTable : List PrereqRow :=
  [⟨"AM1100", none⟩, ⟨"AS2010", none⟩, ⟨"AS2030", none⟩, ⟨"AS2040", none⟩,
   ⟨"AS2050", none⟩, ⟨"AS2070", some "AS2010"⟩, ⟨"AS2080", some "AM1100"⟩,
   ⟨"# ... (and so on for all other prerequisites)", none⟩,
   ⟨"CS3500", some "CS2600;CS2700"⟩]

/-- Steps 3-5 of `create_knowledge_base` (the file loading and renaming
of steps 1-2 are the typed inputs; the `to_csv` of step 6 is I/O). -/
def createKnowledgeBase (semWise : List SemRow) (slotWise : List SlotRow)
    (courseType : List TypeRow) : List KnowledgeRow :=
  let m1 : List SemSlotRow :=
    leftJoin SemRow.courseNo SlotRow.courseNo
      (fun a b => ⟨a.courseNo, a.department, a.semester, a.category, b.slot⟩)
      (fun a => ⟨a.courseNo, a.department, a.semester, a.category, none⟩)
      semWise slotWise
  let m2 : List MasterRow :=
    leftJoin SemSlotRow.category TypeRow.category
      (fun a b => ⟨a.courseNo, a.department, a.semester, a.category, a.slot, some b.courseType⟩)
      (fun a => ⟨a.courseNo, a.department, a.semester, a.category, a.slot, none⟩)
      m1 courseType
  let m3 : List MasterRow := dedupBy MasterRow.courseNo m2
  leftJoin MasterRow.courseNo PrereqRow.courseNo
    (fun a b => ⟨a.courseNo, a.department, a.semester, a.category, a.slot, a.courseType, b.prerequisite⟩)
    (fun a => ⟨a.courseNo, a.department, a.semester, a.category, a.slot, a.courseType, none⟩)
    m3 prerequisiteTable

/-! Fixtures shared by the concrete theorems below. -/

/-- A minimal elective catalog row (category `H`, no slot). -/
def mkElective (no nm : String) : CourseRow :=
  ⟨no, some nm, "CE", 1, "H", none, none, none⟩

/-- A parsed profile with no course history. -/
def profile0 : StudentProfile :=
  ⟨"CE21B001", "JOHN SMITH", "Civil Engineering", "8.0", 6, [], none⟩

/-- A transcript text with roll number, name, department, cgpa phrase and
one quoted course row. -/
def transcriptFull : String :=
  "Roll No: CE21B001\nName: JOHN SMITH\n----\nDepartment: Civil Engineering\n----\nThe average secured by the student is 8.0\n\"CS1100\",\"Intro to Programming\",\"4\",\"C\"\n"

/-- The same transcript without the \"average secured ... is\" phrase. -/
def transcriptNoCgpa : String :=
  "Roll No: CE21B001\nName: JOHN SMITH\n----\nDepartment: Civil Engineering\n----\n\"CS1100\",\"Intro to Programming\",\"4\",\"C\"\n"

/-- The profile `parse_grade_card` extracts from `transcriptFull` at
reference date 2024-03. -/
def profileFull : StudentProfile :=
  ⟨"CE21B001", "JOHN SMITH", "Civil Engineering", "8.0", 6,
   [⟨"CS1100", "Intro to Programming", 4, "C"⟩], none⟩

/-- Six electives, the last being the only one matching the query `zz`. -/
def catalogSix : List CourseRow :=
  [mkElective "H101" "ALPHA", mkElective "H102" "BETA", mkElective "H103" "GAMMA",
   mkElective "H104" "DELTA", mkElective "H105" "EPSILON", mkElective "H106" "JAZZ"]

/-! Lemmas about `dedupBy` and `leftJoin`. -/

theorem dedupBy_subset (key : α → String) (xs : List α) :
    ∀ a ∈ dedupBy key xs, a ∈ xs := by
  induction xs using dedupBy.induct key with
  | case1 => intro a h; simp [dedupBy] at h
  | case2 x xs ih =>
    intro a h
    rw [dedupBy] at h
    rcases List.mem_cons.mp h with h | h
    · simp [h]
    · exact List.mem_cons_of_mem x (List.mem_of_mem_filter (ih a h))

theorem dedupBy_keys_nodup (key : α → String) (xs : List α) :
    ((dedupBy key xs).map key).Nodup := by
  induction xs using dedupBy.induct key with
  | case1 => simp [dedupBy]
  | case2 x xs ih =>
    rw [dedupBy, List.map_cons, List.nodup_cons]
    refine ⟨?_, ih⟩
    intro hmem
    rcases List.mem_map.mp hmem with ⟨y, hy, hkey⟩
    have hyfil := dedupBy_subset key _ y hy
    have := List.of_mem_filter hyfil
    simp only [bne_iff_ne, ne_eq, decide_eq_true_eq] at this
    exact this hkey

theorem dedupBy_length_eq (key : α → String) (xs : List α) :
    (dedupBy key xs).length = ((xs.map key).toFinset).card := by
  induction xs using dedupBy.induct key with
  | case1 => simp [dedupBy]
  | case2 x xs ih =>
    rw [dedupBy, List.length_cons, ih]
    have hfin : (((xs.filter fun y => key y != key x).map key).toFinset) =
        ((xs.map key).toFinset).erase (key x) := by
      ext k
      simp only [List.mem_toFinset, List.mem_map, List.mem_filter, Finset.mem_erase,
        bne_iff_ne, ne_eq, decide_eq_true_eq]
      constructor
      · rintro ⟨y, ⟨hy, hne⟩, rfl⟩
        exact ⟨hne, y, hy, rfl⟩
      · rintro ⟨hne, y, hy, rfl⟩
        exact ⟨y, ⟨hy, hne⟩, rfl⟩
    rw [hfin]
    have hins : insert (key x) (((xs.map key).toFinset).erase (key x)) =
        insert (key x) ((xs.map key).toFinset) := by
      ext k
      simp only [Finset.mem_insert, Finset.mem_erase, ne_eq]
      constructor
      · rintro (rfl | ⟨_, h⟩)
        · exact Or.inl rfl
        · exact Or.inr h
      · rintro (rfl | h)
        · exact Or.inl rfl
        · by_cases hk : k = key x
          · exact Or.inl hk
          · exact Or.inr ⟨hk, h⟩
    have := Finset.card_insert_of_not_mem
      (Finset.not_mem_erase (key x) ((xs.map key).toFinset))
    rw [hins] at this
    rw [List.map_cons, List.toFinset_cons, this]

theorem filter_key_length_le_one (kb : β → String) (k : String) (r : List β)
    (hnd : (r.map kb).Nodup) : (r.filter fun b => kb b == k).length ≤ 1 := by
  induction r with
  | nil => simp
  | cons b t ih =>
    rw [List.map_cons, List.nodup_cons] at hnd
    by_cases hb : kb b = k
    · have htail : t.filter (fun b => kb b == k) = [] := by
        rw [List.filter_eq_nil_iff]
        intro b' hb'
        simp only [beq_iff_eq]
        intro hk
        exact hnd.1 (hb ▸ hk ▸ List.mem_map_of_mem kb hb')
      simp [List.filter_cons, hb, htail]
    · simpa [List.filter_cons, hb] using ih hnd.2

theorem joinBlock_singleton (ka : α → String) (kb : β → String)
    (comb : α → β → γ) (pad : α → γ) (r : List β) (a : α)
    (hnd : (r.map kb).Nodup) :
    joinBlock ka kb comb pad r a = [pad a] ∨
      ∃ b, joinBlock ka kb comb pad r a = [comb a b] := by
  have hle := filter_key_length_le_one kb (ka a) r hnd
  rcases hm : r.filter fun b => kb b == ka a with _ | ⟨b, t⟩
  · left; rw [joinBlock, hm]
  · right
    rw [hm] at hle
    have ht : t = [] := by
      simp only [List.length_cons] at hle
      exact List.eq_nil_of_length_eq_zero (by omega)
    subst ht
    exact ⟨b, by rw [joinBlock, hm]; rfl⟩

theorem joinBlock_mem (ka : α → String) (kb : β → String)
    (comb : α → β → γ) (pad : α → γ) (r : List β) (a : α) (g : γ)
    (hg : g ∈ joinBlock ka kb comb pad r a) :
    g = pad a ∨ ∃ b, g = comb a b := by
  rcases hm : r.filter fun b => kb b == ka a with _ | ⟨b, t⟩
  · rw [joinBlock, hm] at hg
    exact Or.inl (List.mem_singleton.mp hg)
  · rw [joinBlock, hm] at hg
    rcases List.mem_map.mp hg with ⟨b', _, rfl⟩
    exact Or.inr ⟨b', rfl⟩

theorem leftJoin_length_eq (ka : α → String) (kb : β → String)
    (comb : α → β → γ) (pad : α → γ) (l : List α) (r : List β)
    (hnd : (r.map kb).Nodup) :
    (leftJoin ka kb comb pad l r).length = l.length := by
  induction l with
  | nil => simp [leftJoin]
  | cons a l ih =>
    rw [leftJoin, List.flatMap_cons]
    rw [leftJoin] at ih
    rw [List.length_append, ih, List.length_cons]
    rcases joinBlock_singleton ka kb comb pad r a hnd with h | ⟨b, h⟩ <;>
      rw [h] <;> simp <;> omega

theorem leftJoin_map_proj (ka : α → String) (kb : β → String)
    (comb : α → β → γ) (pad : α → γ) (f : γ → String) (fa : α → String)
    (hc : ∀ a b, f (comb a b) = fa a) (hp : ∀ a, f (pad a) = fa a)
    (l : List α) (r : List β) (hnd : (r.map kb).Nodup) :
    (leftJoin ka kb comb pad l r).map f = l.map fa := by
  induction l with
  | nil => simp [leftJoin]
  | cons a l ih =>
    rw [leftJoin, List.flatMap_cons, List.map_append]
    rw [leftJoin] at ih
    rw [ih, List.map_cons]
    rcases joinBlock_singleton ka kb comb pad r a hnd with h | ⟨b, h⟩ <;> rw [h]
    · simp [hp]
    · simp [hc]

theorem leftJoin_proj_mem (ka : α → String) (kb : β → String)
    (comb : α → β → γ) (pad : α → γ) (f : γ → String) (fa : α → String)
    (hc : ∀ a b, f (comb a b) = fa a) (hp : ∀ a, f (pad a) = fa a)
    (l : List α) (r : List β) :
    ∀ g ∈ leftJoin ka kb comb pad l r, f g ∈ l.map fa := by
  intro g hg
  rw [leftJoin, List.mem_flatMap] at hg
  rcases hg with ⟨a, ha, hmem⟩
  rcases joinBlock_mem ka kb comb pad r a g hmem with rfl | ⟨b, rfl⟩
  · exact hp a ▸ List.mem_map_of_mem fa ha
  · exact hc a b ▸ List.mem_map_of_mem fa ha

/-- The hardcoded prerequisite table has pairwise distinct course keys. -/
theorem prerequisiteTable_keys_nodup :
    (prerequisiteTable.map PrereqRow.courseNo).Nodup := by decide

/-- C3: for every valid triple of source tables, the catalog produced by
`create_knowledge_base` has pairwise-distinct `course_no` values and its
row count does not exceed the row count of the semester-assignment
table. -/
theorem createKnowledgeBase_unique_and_bounded
    (semWise : List SemRow) (slotWise : List SlotRow) (courseType : List TypeRow) :
    ((createKnowledgeBase semWise slotWise courseType).map KnowledgeRow.courseNo).Nodup ∧
      (createKnowledgeBase semWise slotWise courseType).length ≤ semWise.length := by
  have hdef : createKnowledgeBase semWise slotWise courseType =
      leftJoin MasterRow.courseNo PrereqRow.courseNo
        (fun a b => ⟨a.courseNo, a.department, a.semester, a.category, a.slot, a.courseType, b.prerequisite⟩)
        (fun a => ⟨a.courseNo, a.department, a.semester, a.category, a.slot, a.courseType, none⟩)
        (dedupBy MasterRow.courseNo
          (leftJoin SemSlotRow.category TypeRow.category
            (fun a b => ⟨a.courseNo, a.department, a.semester, a.category, a.slot, some b.courseType⟩)
            (fun a => ⟨a.courseNo, a.department, a.semester, a.category, a.slot, none⟩)
            (leftJoin SemRow.courseNo SlotRow.courseNo
              (fun a b => ⟨a.courseNo, a.department, a.semester, a.category, b.slot⟩)
              (fun a => ⟨a.courseNo, a.department, a.semester, a.category, none⟩)
              semWise slotWise)
            courseType))
        prerequisiteTable := rfl
  set m1 : List SemSlotRow := leftJoin SemRow.courseNo SlotRow.courseNo
    (fun a b => ⟨a.courseNo, a.department, a.semester, a.category, b.slot⟩)
    (fun a => ⟨a.courseNo, a.department, a.semester, a.category, none⟩)
    semWise slotWise with hm1
  set m2 : List MasterRow := leftJoin SemSlotRow.category TypeRow.category
    (fun a b => ⟨a.courseNo, a.department, a.semester, a.category, a.slot, some b.courseType⟩)
    (fun a => ⟨a.courseNo, a.department, a.semester, a.category, a.slot, none⟩)
    m1 courseType with hm2
  rw [hdef]
  have hkeys : (leftJoin MasterRow.courseNo PrereqRow.courseNo
      (fun a b => (⟨a.courseNo, a.department, a.semester, a.category, a.slot, a.courseType, b.prerequisite⟩ : KnowledgeRow))
      (fun a => ⟨a.courseNo, a.department, a.semester, a.category, a.slot, a.courseType, none⟩)
      (dedupBy MasterRow.courseNo m2) prerequisiteTable).map KnowledgeRow.courseNo =
      (dedupBy MasterRow.courseNo m2).map MasterRow.courseNo := by
    refine leftJoin_map_proj _ _ _ _ _ _ ?_ ?_ _ _ prerequisiteTable_keys_nodup
    · intro a b; rfl
    · intro a; rfl
  constructor
  · rw [hkeys]
    exact dedupBy_keys_nodup MasterRow.courseNo m2
  · rw [leftJoin_length_eq _ _ _ _ _ _ prerequisiteTable_keys_nodup]
    rw [dedupBy_length_eq]
    have hsub : ((m2.map MasterRow.courseNo).toFinset) ⊆
        ((semWise.map SemRow.courseNo).toFinset) := by
      intro k hk
      rw [List.mem_toFinset, List.mem_map] at hk
      rcases hk with ⟨g, hg, rfl⟩
      have h2 : MasterRow.courseNo g ∈ m1.map SemSlotRow.courseNo :=
        leftJoin_proj_mem _ _ _ _ MasterRow.courseNo SemSlotRow.courseNo
          (fun _ _ => rfl) (fun _ => rfl) m1 courseType g hg
      rw [List.mem_map] at h2
      rcases h2 with ⟨g1, hg1, hkey1⟩
      have h1 : SemSlotRow.courseNo g1 ∈ semWise.map SemRow.courseNo :=
        leftJoin_proj_mem _ _ _ _ SemSlotRow.courseNo SemRow.courseNo
          (fun _ _ => rfl) (fun _ => rfl) semWise slotWise g1 hg1
      rw [List.mem_toFinset, ← hkey1]
      exact h1
    calc ((m2.map MasterRow.courseNo).toFinset).card
        ≤ ((semWise.map SemRow.courseNo).toFinset).card := Finset.card_le_card hsub
      _ ≤ (semWise.map SemRow.courseNo).length := List.toFinset_card_le _
      _ = semWise.length := List.length_map _ _

/-! Membership lemmas for the pipeline stages. -/

theorem mem_slotStage (occupied : List String) (rows : List CourseRow)
    (r : CourseRow) :
    r ∈ slotStage occupied rows ↔
      r ∈ rows ∧ slotIsOccupied r.slot occupied = false := by
  rw [slotStage, List.mem_filter, Bool.not_eq_true']

theorem mem_of_mem_preferenceStage (query : String) (rows : List CourseRow)
    (r : CourseRow) (hr : r ∈ preferenceStage query rows) : r ∈ rows := by
  rw [preferenceStage] at hr
  split at hr
  · exact hr
  · exact (List.mem_filter.mp hr).1

/-- C1: no record returned by `recommend_electives` has a slot value that
is a member of the occupied-slot set (records with a missing slot are
permitted and may appear). -/
theorem recommendElectives_slot_conflict_free (catalog : List CourseRow)
    (profile : StudentProfile) (preference : String) (occupied : List String)
    (r : CourseRow) (s : String)
    (hr : r ∈ recommendElectives catalog profile preference occupied)
    (hs : r.slot = some s) : s ∉ occupied := by
  have hfree : r ∈ freeElectives catalog profile preference occupied :=
    List.mem_of_mem_take hr
  rw [freeElectives, mem_slotStage] at hfree
  intro hmem
  have hocc := hfree.2
  rw [hs] at hocc
  simp [slotIsOccupied, List.contains] at hocc
  exact hocc hmem

/-- C1 witness: a concrete run where a record is returned and its slot is
therefore outside the occupied set. -/
theorem recommendElectives_slot_conflict_free_witness :
    (⟨"H101", some "YOGA", "CE", 1, "H", none, some "A", none⟩ : CourseRow) ∈
      recommendElectives [⟨"H101", some "YOGA", "CE", 1, "H", none, some "A", none⟩]
        profile0 "" ["B"] ∧
    "A" ∉ (["B"] : List String) :=
  ⟨by decide,
   recommendElectives_slot_conflict_free
     [⟨"H101", some "YOGA", "CE", 1, "H", none, some "A", none⟩]
     profile0 "" ["B"]
     ⟨"H101", some "YOGA", "CE", 1, "H", none, some "A", none⟩ "A"
     (by decide) rfl⟩

/-- C2 counterexample: because `recommend_electives` truncates to the
first 5 records *after* filtering, a non-empty preference can surface a
record that the empty preference does not return, so the returned list
with a non-empty preference is not a subset of the returned list with the
empty preference. -/
theorem recommendElectives_pref_not_subset_cx :
    mkElective "H106" "JAZZ" ∈ recommendElectives catalogSix profile0 "zz" [] ∧
    mkElective "H106" "JAZZ" ∉ recommendElectives catalogSix profile0 "" [] := by
  constructor <;> decide

/-- C2 (amended): with any non-empty preference, every returned record is
a member of the pre-truncation surviving set of the empty-preference
pipeline (`free_electives` before `.head(5)`); the subset relation holds
before, but not after, the first-5 truncation. -/
theorem recommendElectives_pref_subset_pretruncation
    (catalog : List CourseRow) (profile : StudentProfile) (preference : String)
    (occupied : List String) (_hpref : preference ≠ "") (r : CourseRow)
    (hr : r ∈ recommendElectives catalog profile preference occupied) :
    r ∈ freeElectives catalog profile "" occupied := by
  have hfree : r ∈ freeElectives catalog profile preference occupied :=
    List.mem_of_mem_take hr
  rw [freeElectives, mem_slotStage] at hfree
  have hlow : pyLower "" = "" := rfl
  rw [freeElectives, hlow, mem_slotStage]
  refine ⟨?_, hfree.2⟩
  have h1 : r ∈ performanceStage profile (electiveStage catalog) :=
    mem_of_mem_preferenceStage _ _ _ hfree.1
  simpa [preferenceStage] using h1

/-- C2 witness. -/
theorem recommendElectives_pref_subset_pretruncation_witness :
    mkElective "H101" "JAZZ" ∈ freeElectives [mkElective "H101" "JAZZ"] profile0 "" [] :=
  recommendElectives_pref_subset_pretruncation [mkElective "H101" "JAZZ"] profile0
    "zz" [] (by decide) (mkElective "H101" "JAZZ") (by decide)

/-- C8 counterexample: the code only checks `if query:`, so the
preference string `any` is *not* treated like the empty preference — it
is matched as an ordinary substring and can filter everything out. -/
theorem recommendElectives_any_not_skipped_cx :
    recommendElectives [mkElective "H107" "Ethics"] profile0 "any" [] = [] ∧
    recommendElectives [mkElective "H107" "Ethics"] profile0 "" []
      = [mkElective "H107" "Ethics"] := by
  constructor <;> decide

/-- C8 (amended): the preference filter is skipped only for the empty
preference string; `any` runs through the ordinary substring filter, so
every record returned for preference `any` contains `any`
(case-insensitively) in its name, course type or description. -/
theorem recommendElectives_any_applies_filter
    (catalog : List CourseRow) (profile : StudentProfile) (occupied : List String)
    (r : CourseRow) (hr : r ∈ recommendElectives catalog profile "any" occupied) :
    queryMatches "any" r = true := by
  have hfree : r ∈ freeElectives catalog profile "any" occupied :=
    List.mem_of_mem_take hr
  rw [freeElectives, mem_slotStage] at hfree
  have hlow : pyLower "any" = "any" := rfl
  rw [hlow] at hfree
  have h1 := hfree.1
  rw [preferenceStage, if_neg (by decide : ¬("any" : String) = "")] at h1
  exact (List.mem_filter.mp h1).2

/-- C8 witness. -/
theorem recommendElectives_any_applies_filter_witness :
    queryMatches "any" (mkElective "H108" "Anytime Yoga") = true :=
  recommendElectives_any_applies_filter [mkElective "H108" "Anytime Yoga"] profile0 []
    (mkElective "H108" "Anytime Yoga") (by decide)

/-- C9: a candidate record with a missing (null) slot is never removed by
the slot-conflict stage, whatever the occupied-slot set is. -/
theorem slotStage_keeps_missing_slot (occupied : List String)
    (rows : List CourseRow) (r : CourseRow) (hr : r ∈ rows) (hs : r.slot = none) :
    r ∈ slotStage occupied rows := by
  rw [mem_slotStage]
  exact ⟨hr, by rw [hs]; rfl⟩

/-- C9 witness. -/
theorem slotStage_keeps_missing_slot_witness :
    mkElective "H109" "ART" ∈ slotStage ["A", "B"] [mkElective "H109" "ART"] :=
  slotStage_keeps_missing_slot ["A", "B"] [mkElective "H109" "ART"]
    (mkElective "H109" "ART") (by decide) rfl

/-- C10: the suggested-questions helper always returns exactly three
prompts; the first and last are fixed, and the middle prompt is the
humanities-slots prompt iff at least two of the taken courses have a
course number starting with `HS`. -/
theorem generateSuggestedQuestions_spec (profile : StudentProfile) :
    (generateSuggestedQuestions profile).length = 3 ∧
    (generateSuggestedQuestions profile).head? = some "Suggest some 9 credit electives" ∧
    (generateSuggestedQuestions profile).getLast? = some "Find management electives" ∧
    ((generateSuggestedQuestions profile)[1]? =
        some "Show me more humanities electives in my free slots" ↔
      2 ≤ (profile.courses_taken.filter fun c => pyStartsWith c.course_no "HS").length) := by
  unfold generateSuggestedQuestions
  by_cases h :
      2 ≤ (profile.courses_taken.filter fun c => pyStartsWith c.course_no "HS").length
  · simp [h]
  · simp [h]

/-- C10 witness. -/
theorem generateSuggestedQuestions_spec_witness :
    (generateSuggestedQuestions profile0).length = 3 :=
  (generateSuggestedQuestions_spec profile0).1

/-- C6 counterexample: for roll number `AB99XYZ` at reference date
2024-03 the code returns year `-74` (the year component is not clamped),
so the returned year is not always at least 1. -/
theorem calculateSemesterAndYear_year_not_positive_cx :
    calculateSemesterAndYear "AB99XYZ" 2024 3 = (1, -74) ∧
    ¬(1 ≤ (calculateSemesterAndYear "AB99XYZ" 2024 3).2) := by
  constructor <;> decide

/-- C6 (amended): the semester component is always at least 1 and the
result is exactly `(1, 1)` when the roll number has no
two-letters-plus-two-digits token; the year component, however, is
unclamped — it is at least 1 only when the reference year is not below
the entry year encoded in the token. -/
theorem calculateSemesterAndYear_bounds (roll : String) (currentYear : Int)
    (month : Nat) :
    1 ≤ (calculateSemesterAndYear roll currentYear month).1 ∧
    (rollYearDigits roll.data = none →
      calculateSemesterAndYear roll currentYear month = (1, 1)) ∧
    (∀ d1 d2, rollYearDigits roll.data = some (d1, d2) →
      ((2000 + (10 * charDigit d1 + charDigit d2) : Nat) : Int) ≤ currentYear →
      1 ≤ (calculateSemesterAndYear roll currentYear month).2) := by
  refine ⟨?_, ?_, ?_⟩
  · rcases htok : rollYearDigits roll.data with _ | ⟨d1, d2⟩
    · simp [calculateSemesterAndYear, htok]
    · simp only [calculateSemesterAndYear, htok]
      split <;> omega
  · intro h
    simp [calculateSemesterAndYear, h]
  · intro d1 d2 heq hle
    simp only [calculateSemesterAndYear, heq]
    omega

/-- C6 witness. -/
theorem calculateSemesterAndYear_bounds_witness :
    1 ≤ (calculateSemesterAndYear "AB21XYZ" 2024 3).1 ∧
    calculateSemesterAndYear "1234" 2024 3 = (1, 1) ∧
    1 ≤ (calculateSemesterAndYear "AB21XYZ" 2024 3).2 :=
  ⟨(calculateSemesterAndYear_bounds "AB21XYZ" 2024 3).1,
   (calculateSemesterAndYear_bounds "1234" 2024 3).2.1 (by decide),
   (calculateSemesterAndYear_bounds "AB21XYZ" 2024 3).2.2 '2' '1' (by decide) (by decide)⟩

/-- C7: for roll number `AB21XYZ` the derivation returns semester 6 and
year 4 at reference date 2024-03, and semester 7 at 2024-08. -/
theorem calculateSemesterAndYear_ab21_examples :
    calculateSemesterAndYear "AB21XYZ" 2024 3 = (6, 4) ∧
    (calculateSemesterAndYear "AB21XYZ" 2024 8).1 = 7 := by
  constructor <;> decide

set_option maxRecDepth 100000 in
/-- C4 counterexample: the code builds the profile dictionary with
`float(re.search(...).group(1))` for `cgpa`, so a transcript that matches
the roll-number, name and department patterns but omits the
`average secured ... is` phrase makes `parse_grade_card` raise — parsing
does not succeed. -/
theorem parseGradeCardText_missing_cgpa_fails_cx :
    parseGradeCardText transcriptNoCgpa 2024 3 = none := by decide

set_option maxRecDepth 100000 in
/-- C4 (amended): the cgpa phrase is required, not optional; when it is
present together with the other fields and the quoted course row, parsing
succeeds and yields exactly one course entry with credits 4 and
grade `C`. -/
theorem parseGradeCardText_with_cgpa_one_course :
    parseGradeCardText transcriptFull 2024 3 = some profileFull ∧
    profileFull.courses_taken.length = 1 ∧
    profileFull.courses_taken.map CourseTaken.credits = [4] ∧
    profileFull.courses_taken.map CourseTaken.grade = ["C"] := by
  refine ⟨by decide, by decide, by decide, by decide⟩

set_option maxRecDepth 100000 in
/-- C5 counterexample: `parse_grade_card` stores the profile in
`STUDENT_SESSIONS` before `init_from_pdf` does the catalog lookup, so
when the catalog is unavailable the request answers with the error
response *and* the freshly parsed profile — still without
`occupied_slots` — remains stored: the store is not left unchanged. -/
theorem initFromPdf_error_stores_profile_cx :
    (initFromPdf none [] transcriptFull 2024 3).1 = InitResult.errorResp ∧
    (initFromPdf none [] transcriptFull 2024 3).2 = [("CE21B001", profileFull)] ∧
    profileFull.occupiedSlots = none := by
  refine ⟨by decide, by decide, rfl⟩

/-- C5 (amended): when the *parse step itself* fails, the upload handler
answers with the error response and the session store is exactly the
store from before the request (not so for post-parse failures, see the
counterexample). -/
theorem initFromPdf_parse_failure_preserves_store
    (catalog : Option (List CourseRow)) (store : SessionStore) (text : String)
    (currentYear : Int) (month : Nat)
    (hfail : parseGradeCardText text currentYear month = none) :
    initFromPdf catalog store text currentYear month = (InitResult.errorResp, store) := by
  simp [initFromPdf, parseGradeCard, hfail]

/-- C5 witness. -/
theorem initFromPdf_parse_failure_preserves_store_witness :
    initFromPdf none [] "irrelevant" 2024 3 = (InitResult.errorResp, []) :=
  initFromPdf_parse_failure_preserves_store none [] "irrelevant" 2024 3 (by decide)

